import Mathlib

/-!
Verification of the youtube-downloader repository (src/src/run_download.py and
src/app.py) against its natural-language specification.

The Python code is shallowly embedded: pure helpers become Lean functions,
side effects (printing, filesystem, the external yt-dlp / ffmpeg calls) become
explicit event lists, a set-of-paths filesystem, and outcome oracles passed as
arguments.  Definitions follow the source line by line; theorems state the
spec's claims about them.
-/

/- ### sanitize_filename (run_download.py, lines 65-70)

Python:
    invalid_chars = '<>:"/\\|?*'
    for char in invalid_chars:
        filename = filename.replace(char, "_")
    return filename
-/

/-- The characters of the Python string `'<>:"/\\|?*'`, in source order. -/
def invalidChars : List Char := ['<', '>', ':', '"', '/', '\\', '|', '?', '*']

/-- Python `filename.replace(old, "_")` for a one-character needle `old`:
every occurrence of `old` becomes an underscore. -/
def replaceChar (filename : String) (old : Char) : String :=
  ⟨filename.data.map (fun c => if c = old then '_' else c)⟩

/-- `YouTubeDownloader.sanitize_filename`: the `for char in invalid_chars`
loop is a left fold of `replaceChar` over `invalidChars`. -/
def sanitize_filename (filename : String) : String :=
  invalidChars.foldl replaceChar filename

/-- Pointwise description of sanitization: an invalid character becomes an
underscore, all others are kept. -/
def sanChar (c : Char) : Char :=
  if c ∈ invalidChars then '_' else c

theorem str_ext {s t : String} (h : s.data = t.data) : s = t := by
  cases s; cases t; exact congrArg String.mk h

theorem foldl_replace_data (cs : List Char) (hcs : '_' ∉ cs) (s : String) :
    (cs.foldl replaceChar s).data = s.data.map (fun c => if c ∈ cs then '_' else c) := by
  induction cs generalizing s with
  | nil => simp
  | cons c1 rest ih =>
    have h1 : '_' ∉ rest := fun h => hcs (List.mem_cons_of_mem _ h)
    have h2 : '_' ≠ c1 := fun h => hcs (h ▸ List.mem_cons_self _ _)
    simp only [List.foldl_cons]
    rw [ih h1]
    show (replaceChar s c1).data.map _ = _
    simp only [replaceChar, List.map_map]
    apply List.map_congr_left
    intro x _
    by_cases hx : x = c1
    · subst hx
      simp [Function.comp, h1]
    · simp [Function.comp, hx]

theorem sanitize_eq_map (s : String) :
    sanitize_filename s = ⟨s.data.map sanChar⟩ := by
  apply str_ext
  show (invalidChars.foldl replaceChar s).data = _
  rw [foldl_replace_data invalidChars (by decide) s]
  rfl

theorem sanChar_not_invalid (c : Char) : sanChar c ∉ invalidChars := by
  unfold sanChar
  by_cases h : c ∈ invalidChars
  · simp only [if_pos h]
    decide
  · simpa [if_neg h] using h

theorem sanChar_idem (c : Char) : sanChar (sanChar c) = sanChar c := by
  unfold sanChar
  by_cases h : c ∈ invalidChars
  · simp [if_pos h]
  · simp [if_neg h]

/- ### URL classification (run_download.py, lines 134-138)

Python:
    parsed_url = urlparse(url)
    query_params = parse_qs(parsed_url.query)
    return "list" in query_params

`urlparse` and `parse_qs` come from `urllib.parse`; they are embedded below
following the CPython implementation (3.11+).  `urlsplit` first deletes the
unsafe bytes tab/CR/LF, strips a leading scheme, and, when the remainder
starts with `//`, extracts the netloc and validates any brackets in it —
raising `ValueError` on a mismatched bracket ("Invalid IPv6 URL") or an
invalid bracketed host (`_check_bracketed_host`).  Only then are the
fragment (everything from the first `#`) and the query (everything after
the first `?` of what remains) split off.  The raising paths are modelled
with `Except`, and `is_playlist` propagates them, exactly as the Python
function lets the `ValueError` escape.
-/

/-- Position of the first occurrence of `sep`: `some (before, after)` when
`sep` occurs, mirroring Python's `s.split(sep, 1)` with two results. -/
def breakFirst (sep : Char) : List Char → Option (List Char × List Char)
  | [] => none
  | c :: rest =>
    if c = sep then some ([], rest)
    else (breakFirst sep rest).map (fun p => (c :: p.1, p.2))

/-- Deletion of the bytes CPython's `urlsplit` removes up front
(`_UNSAFE_URL_BYTES_TO_REMOVE` = tab, CR, LF). -/
def stripTabCrLf (cs : List Char) : List Char :=
  cs.filter (fun c => !(c = Char.ofNat 9 || c = Char.ofNat 13 || c = Char.ofNat 10))

/-- Membership of CPython's `scheme_chars` (ASCII letters, digits, `+-.`). -/
def isSchemeChar (c : Char) : Bool :=
  c.isAlpha || c.isDigit || c = '+' || c = '-' || c = '.'

/-- Scheme stripping of `urlsplit`: when the first `:` is at a positive
position, the first character is an ASCII letter and everything before the
colon is in `scheme_chars`, the scheme and the colon are removed (the
scheme itself is discarded here since only the query is needed). -/
def splitScheme (cs : List Char) : List Char :=
  match breakFirst ':' cs with
  | none => cs
  | some p =>
    match p.1 with
    | [] => cs
    | c0 :: rest => if c0.isAlpha && rest.all isSchemeChar then p.2 else cs

/-- `_splitnetloc(url, 2)` applied to the text after `//`: the netloc runs
up to the first of `/`, `?` or `#`; the remainder keeps the delimiter. -/
def netlocSplit : List Char → List Char × List Char
  | [] => ([], [])
  | c :: rest =>
    if c = '/' || c = '?' || c = '#' then ([], c :: rest)
    else
      let p := netlocSplit rest
      (c :: p.1, p.2)

/- ### urllib.parse.unquote

CPython splits the string into maximal ASCII runs, percent-decodes each run to
bytes (`unquote_to_bytes`: a `%` followed by two hex digits becomes that byte,
otherwise the `%` stays literal), decodes each byte run as UTF-8 with
`errors='replace'`, and passes non-ASCII characters through unchanged.  The
early return for strings without `%` yields the same result, since ASCII bytes
decode to themselves. -/

/-- Value of a hexadecimal digit, accepting both cases like CPython's
`_hextobyte` table. -/
def hexDigit? (c : Char) : Option Nat :=
  if '0' ≤ c ∧ c ≤ '9' then some (c.toNat - 48)
  else if 'a' ≤ c ∧ c ≤ 'f' then some (c.toNat - 87)
  else if 'A' ≤ c ∧ c ≤ 'F' then some (c.toNat - 55)
  else none

/-- Token stream of `unquote`: ASCII characters and `%XX` escapes become
bytes; non-ASCII characters pass through. -/
inductive PctTok where
  | byte (b : Nat)
  | wide (c : Char)
deriving DecidableEq

/-- Percent-tokenisation with fuel (each step consumes at least one
character, so `fuel = length` suffices). -/
def pctTokens : Nat → List Char → List PctTok
  | 0, _ => []
  | _ + 1, [] => []
  | fuel + 1, c :: rest =>
    if c = '%' then
      match rest with
      | h1 :: h2 :: rest2 =>
        match hexDigit? h1, hexDigit? h2 with
        | some v1, some v2 => .byte (16 * v1 + v2) :: pctTokens fuel rest2
        | _, _ => .byte 37 :: pctTokens fuel rest
      | _ => .byte 37 :: pctTokens fuel rest
    else if c.toNat < 128 then .byte c.toNat :: pctTokens fuel rest
    else .wide c :: pctTokens fuel rest

/-- Unicode replacement character U+FFFD, produced by `errors='replace'`. -/
def replChar : Char := Char.ofNat 0xFFFD

/-- Continuation byte test (0x80-0xBF). -/
def isCont (b : Nat) : Bool := 128 ≤ b && b ≤ 191

/-- UTF-8 decoding with replacement of maximal invalid subparts, as CPython's
`bytes.decode('utf-8', 'replace')` does: each maximal valid prefix of a
sequence that cannot be completed yields one U+FFFD. -/
def utf8Go : Nat → List Nat → List Char
  | 0, _ => []
  | _ + 1, [] => []
  | fuel + 1, b :: rest =>
    if b < 128 then Char.ofNat b :: utf8Go fuel rest
    else if 194 ≤ b && b ≤ 223 then
      match rest with
      | b2 :: rest2 =>
        if isCont b2 then Char.ofNat ((b - 192) * 64 + (b2 - 128)) :: utf8Go fuel rest2
        else replChar :: utf8Go fuel rest
      | [] => [replChar]
    else if 224 ≤ b && b ≤ 239 then
      let lo := if b = 224 then 160 else 128
      let hi := if b = 237 then 159 else 191
      match rest with
      | b2 :: rest2 =>
        if lo ≤ b2 && b2 ≤ hi then
          match rest2 with
          | b3 :: rest3 =>
            if isCont b3 then
              Char.ofNat ((b - 224) * 4096 + (b2 - 128) * 64 + (b3 - 128)) :: utf8Go fuel rest3
            else replChar :: utf8Go fuel rest2
          | [] => [replChar]
        else replChar :: utf8Go fuel rest
      | [] => [replChar]
    else if 240 ≤ b && b ≤ 244 then
      let lo := if b = 240 then 144 else 128
      let hi := if b = 244 then 143 else 191
      match rest with
      | b2 :: rest2 =>
        if lo ≤ b2 && b2 ≤ hi then
          match rest2 with
          | b3 :: rest3 =>
            if isCont b3 then
              match rest3 with
              | b4 :: rest4 =>
                if isCont b4 then
                  Char.ofNat ((b - 240) * 262144 + (b2 - 128) * 4096 + (b3 - 128) * 64 + (b4 - 128)) :: utf8Go fuel rest4
                else replChar :: utf8Go fuel rest3
              | [] => [replChar]
            else replChar :: utf8Go fuel rest2
          | [] => [replChar]
        else replChar :: utf8Go fuel rest
      | [] => [replChar]
    else replChar :: utf8Go fuel rest

/-- UTF-8 decode with replacement. -/
def utf8DecodeReplace (bs : List Nat) : List Char := utf8Go bs.length bs

/-- Reassembly of the unquoted string: byte runs are buffered and decoded as
UTF-8 at each non-ASCII character boundary and at the end, matching CPython's
decoding of each maximal ASCII run separately. -/
def detokenize : List PctTok → List Nat → List Char
  | [], buf => utf8DecodeReplace buf
  | .byte b :: ts, buf => detokenize ts (buf ++ [b])
  | .wide c :: ts, buf => utf8DecodeReplace buf ++ c :: detokenize ts []

/-- `urllib.parse.unquote` with the defaults `encoding='utf-8'`,
`errors='replace'` used by `parse_qsl`. -/
def unquote (s : String) : String :=
  ⟨detokenize (pctTokens s.data.length s.data) []⟩

/- ### urlsplit's bracketed-netloc validation

CPython raises `ValueError("Invalid IPv6 URL")` when the netloc contains one
bracket without the other; with both present, `_check_bracketed_host` (3.11+)
validates the text between the first `[` and the following `]`: an IPvFuture
literal `v<hex>+.<rest>` or an address accepted by `ipaddress.ip_address`
that is IPv6 (a bracketed IPv4 address raises).  The IPv4 and IPv6 textual
grammars of the `ipaddress` module are embedded below. -/

/-- Hexadecimal-digit test (both cases), reusing `hexDigit?`. -/
def isHexDigitChar (c : Char) : Bool := (hexDigit? c).isSome

/-- Split on every occurrence of `sep`, like Python `s.split(sep)`. -/
def splitSep (sep : Char) (cs : List Char) : List (List Char) :=
  cs.foldr
    (fun c acc =>
      if c = sep then [] :: acc
      else match acc with
        | a :: rest => (c :: a) :: rest
        | [] => [[c]])
    [[]]

/-- Decimal value of a digit string. -/
def octetVal (o : List Char) : Nat :=
  o.foldl (fun a c => a * 10 + (c.toNat - 48)) 0

/-- `IPv4Address._parse_octet`: nonempty, ASCII digits only, at most three
characters, no leading zero unless the octet is exactly `0`, value at most
255. -/
def ipv4OctetOk (o : List Char) : Bool :=
  decide (o ≠ []) && o.all Char.isDigit && decide (o.length ≤ 3)
  && (decide (o.length = 1) || decide (o.headD '0' ≠ '0'))
  && decide (octetVal o ≤ 255)

/-- `IPv4Address` textual form: exactly four valid octets; returns the
32-bit value on success (needed for the IPv6 embedded-IPv4 rewrite). -/
def ipv4Val? (cs : List Char) : Option Nat :=
  let octets := splitSep '.' cs
  if octets.length = 4 && octets.all ipv4OctetOk then
    some (octets.foldl (fun a o => a * 256 + octetVal o) 0)
  else none

/-- `IPv6Address._parse_hextet`: one to four hex digits. -/
def parseHextet (h : List Char) : Bool :=
  decide (h ≠ []) && decide (h.length ≤ 4) && h.all isHexDigitChar

/-- `IPv6Address._ip_int_from_string` as a validity test: at least three
colon-separated parts; an IPv4-style last part is parsed and replaced by
its two hextets; at most nine parts; at most one empty middle part (the
`::`), with a leading or trailing empty part only next to it; the skipped
run must cover at least one hextet; all parsed parts are valid hextets. -/
def ipv6AddrOk (addr : List Char) : Bool :=
  let parts0 := splitSep ':' addr
  if parts0.length < 3 then false
  else
    let lastP := parts0.getLastD []
    let partsOpt : Option (List (List Char)) :=
      if lastP.contains '.' then
        match ipv4Val? lastP with
        | none => none
        | some v =>
          some (parts0.dropLast ++
            [Nat.toDigits 16 ((v / 65536) % 65536), Nat.toDigits 16 (v % 65536)])
      else some parts0
    match partsOpt with
    | none => false
    | some parts =>
      if parts.length > 9 then false
      else
        let mids := (parts.drop 1).dropLast
        let nEmpty := mids.countP (fun p => decide (p = []))
        if nEmpty > 1 then false
        else if nEmpty = 1 then
          let skipIndex := 1 + mids.findIdx (fun p => decide (p = []))
          let headEmpty := decide (parts.headD ['x'] = [])
          let lastEmpty := decide (parts.getLastD ['x'] = [])
          let partsHi := if headEmpty then skipIndex - 1 else skipIndex
          let partsLo0 := parts.length - skipIndex - 1
          let partsLo := if lastEmpty then partsLo0 - 1 else partsLo0
          (!headEmpty || decide (skipIndex = 1))
          && (!lastEmpty || decide (partsLo0 = 1))
          && decide (partsHi + partsLo ≤ 7)
          && (parts.take partsHi).all parseHextet
          && (parts.drop (parts.length - partsLo)).all parseHextet
        else
          decide (parts.length = 8)
          && decide (parts.headD [] ≠ [])
          && decide (parts.getLastD [] ≠ [])
          && parts.all parseHextet

/-- `IPv6Address` textual form including `_split_scope_id`: an optional
`%scope` suffix whose scope part is nonempty and free of `%`. -/
def ipv6Ok (cs : List Char) : Bool :=
  match breakFirst '%' cs with
  | none => ipv6AddrOk cs
  | some p => decide (p.2 ≠ []) && !p.2.contains '%' && ipv6AddrOk p.1

/-- The IPvFuture regex of `_check_bracketed_host`:
`v`, one or more hex digits, a dot, then at least one character. -/
def ipvFutureOk (h : List Char) : Bool :=
  match h with
  | 'v' :: rest =>
    match breakFirst '.' rest with
    | some p => decide (p.1 ≠ []) && p.1.all isHexDigitChar && decide (p.2 ≠ [])
    | none => false
  | _ => false

/-- `_check_bracketed_host` as a validity test: an IPvFuture literal when
the host starts with `v`, otherwise a valid IPv6 address (anything else,
including a bracketed IPv4 address, raises). -/
def bracketedHostOk (h : List Char) : Bool :=
  match h with
  | 'v' :: _ => ipvFutureOk h
  | _ => ipv6Ok h

/-- The bracket validation `urlsplit` applies to a netloc: a mismatched
bracket raises `Invalid IPv6 URL`; with both brackets present the text
between the first `[` and the following `]` must be a valid bracketed host
(CPython's message for that failure depends on the failing sub-parser; a
fixed message stands in for it here). -/
def netlocCheck (netloc : List Char) : Except String Unit :=
  let hasOpen := netloc.contains '['
  let hasClose := netloc.contains ']'
  if (hasOpen && !hasClose) || (hasClose && !hasOpen) then
    .error "Invalid IPv6 URL"
  else if hasOpen && hasClose then
    let bracketed := match breakFirst '[' netloc with
      | some p =>
        match breakFirst ']' p.2 with
        | some q => q.1
        | none => p.2
      | none => []
    if bracketedHostOk bracketed then .ok () else .error "invalid bracketed host"
  else .ok ()

/-- Fragment and query split of `urlsplit`, applied after netloc removal:
drop everything from the first `#`, then keep everything after the first
`?` (empty when there is none). -/
def queryFrom (u : List Char) : String :=
  let preFrag := match breakFirst '#' u with
    | some p => p.1
    | none => u
  match breakFirst '?' preFrag with
  | some p => ⟨p.2⟩
  | none => ""

/-- Query component of `urlparse(url)` with the raising path: unsafe-byte
removal, scheme stripping, then — when the remainder starts with `//` —
netloc extraction and bracket validation (a failure is the propagated
`ValueError`), and finally the fragment/query split. -/
def urlsplitQuery (url : String) : Except String String :=
  let cs := stripTabCrLf url.data
  match splitScheme cs with
  | '/' :: '/' :: rest =>
    let p := netlocSplit rest
    match netlocCheck p.1 with
    | .error e => .error e
    | .ok _ => .ok (queryFrom p.2)
  | other => .ok (queryFrom other)

/- ### urllib.parse.parse_qsl / parse_qs (defaults: keep_blank_values=False,
strict_parsing=False, separator='&') -/

/-- Python `s.replace('+', ' ')`, applied to names and values before
unquoting. -/
def plusToSpace (s : String) : String :=
  ⟨s.data.map (fun c => if c = '+' then ' ' else c)⟩

/-- Split of the query on every `&`, as `qs.split('&')` does. -/
def splitAmp (cs : List Char) : List (List Char) :=
  cs.foldr
    (fun c acc =>
      if c = '&' then [] :: acc
      else match acc with
        | a :: rest => (c :: a) :: rest
        | [] => [[c]])
    [[]]

/-- `urllib.parse.parse_qsl(qs)` with the module defaults: empty fields and
fields without `=` or with an empty value are dropped; kept names and values
get `+`→space then percent-unquoting. -/
def parse_qsl (qs : String) : List (String × String) :=
  let queryArgs := if qs = "" then [] else splitAmp qs.data
  queryArgs.filterMap (fun nameValue =>
    if nameValue = [] then none
    else match breakFirst '=' nameValue with
      | none => none
      | some nv =>
        if nv.2 = [] then none
        else some (unquote (plusToSpace ⟨nv.1⟩), unquote (plusToSpace ⟨nv.2⟩)))

/-- One step of CPython's `parse_qs` dict building: append the value to an
existing key, otherwise add a new key at the end. -/
def insertParam (d : List (String × List String)) (name value : String) :
    List (String × List String) :=
  if d.any (fun p => p.1 == name) then
    d.map (fun p => if p.1 == name then (p.1, p.2 ++ [value]) else p)
  else d ++ [(name, [value])]

/-- `urllib.parse.parse_qs(qs)`: the pair list grouped into an
insertion-ordered dictionary. -/
def parse_qs (qs : String) : List (String × List String) :=
  (parse_qsl qs).foldl (fun d p => insertParam d p.1 p.2) []

/-- Python `name in dict` on the embedded dictionary. -/
def containsParam (d : List (String × List String)) (name : String) : Bool :=
  d.any (fun p => p.1 == name)

/-- `YouTubeDownloader.is_playlist` (run_download.py, lines 134-138): a pure
function of the URL string, no network access.  The method has no
try/except, so a `ValueError` raised by `urlparse` on an invalid bracketed
netloc propagates to the caller (`Except.error`). -/
def is_playlist (url : String) : Except String Bool :=
  match urlsplitQuery url with
  | .error e => .error e
  | .ok q => .ok (containsParam (parse_qs q) "list")

/-- C5: `sanitize_filename` replaces every occurrence of every character of
`<>:"/\|?*` with an underscore, so its result contains no character from
that set; the spec's example `A/B: "Mix"` maps to `A_B_ _Mix_`. -/
theorem sanitize_filename_no_invalid :
    (∀ s : String, ∀ c ∈ (sanitize_filename s).data, c ∉ invalidChars) ∧
    sanitize_filename "A/B: \"Mix\"" = "A_B_ _Mix_" := by
  constructor
  · intro s c hc
    rw [sanitize_eq_map] at hc
    obtain ⟨x, _, rfl⟩ := List.mem_map.mp hc
    exact sanChar_not_invalid x
  · decide

/-- Witness for C5 at a concrete input: `'A'` survives sanitization of
`"A<B"` and is indeed not an invalid character. -/
theorem sanitize_filename_no_invalid_witness :
    ('A' ∈ (sanitize_filename "A<B").data) ∧ 'A' ∉ invalidChars :=
  ⟨by decide, sanitize_filename_no_invalid.1 "A<B" 'A' (by decide)⟩

/-- C10: `sanitize_filename` is idempotent, since the replacement character
`'_'` is not itself in the invalid set. -/
theorem sanitize_filename_idem (s : String) :
    sanitize_filename (sanitize_filename s) = sanitize_filename s := by
  rw [sanitize_eq_map s, sanitize_eq_map ⟨s.data.map sanChar⟩]
  apply congrArg String.mk
  show (s.data.map sanChar).map sanChar = s.data.map sanChar
  rw [List.map_map]
  apply List.map_congr_left
  intro x _
  simpa [Function.comp] using sanChar_idem x

/- ### YouTubeDownloader construction (run_download.py, lines 15-63)

Side effects are made explicit: the filesystem is a set (list) of existing
directory paths, printing becomes an event list, and the external
yt-dlp/ffmpeg work is an outcome oracle passed as an argument.  `Path`
values are kept as strings; `dir / name` is string concatenation with a
separator (Python's `PurePath.__truediv__` for a relative name). -/

/-- Module constant `DEFAULT_AUDIO_FORMAT`. -/
def DEFAULT_AUDIO_FORMAT : String := "mp3"

/-- Module constant `DEFAULT_DOWNLOAD_DIR`. -/
def DEFAULT_DOWNLOAD_DIR : String := "../downloads"

/-- Module constant `DEFAULT_QUALITY`. -/
def DEFAULT_QUALITY : String := "320k"

/-- Python `str(dir / name)`. -/
def pathJoin (dir name : String) : String := dir ++ "/" ++ name

/-- The yt-dlp option dictionary built by `__init__` (lines 36-63), with the
keys the constructor writes.  `preferredquality` is `Option` because Python
stores `None` there for lossless formats; `extractFlat` is `none` when the
key is absent (the base dictionary) and `some` once `download_playlist`
copies and sets it. -/
structure YdlOpts where
  format : String
  outtmpl : String
  extractaudio : Bool
  audioformat : String
  audioquality : String
  ppKey : String
  preferredcodec : String
  preferredquality : Option String
  ffmpegLocation : Option String
  extractFlat : Option Bool
deriving DecidableEq

/-- Lines 36-63 of `__init__`: the option dictionary as a function of the
(already lowercased) audio format and the requested quality string. -/
def buildYdlOpts (outputDir audioFormat quality : String) : YdlOpts :=
  let opts : YdlOpts := {
    format := "bestaudio/best"
    outtmpl := pathJoin outputDir "%(title)s.%(ext)s"
    extractaudio := true
    audioformat := audioFormat
    audioquality := if audioFormat = "mp3" then quality else "0"
    ppKey := "FFmpegExtractAudio"
    preferredcodec := audioFormat
    preferredquality := if audioFormat = "mp3" then some quality else none
    ffmpegLocation := none
    extractFlat := none }
  let opts := if audioFormat = "wav" ∨ audioFormat = "flac" then
      { opts with preferredquality := none }
    else opts
  { opts with outtmpl := pathJoin outputDir "%(uploader)s - %(title)s.%(ext)s" }

/-- The downloader object: fields assigned by `__init__`. -/
structure YouTubeDownloader where
  output_dir : String
  audio_format : String
  quality : String
  ydl_opts : YdlOpts
deriving DecidableEq

/-- Python `audio_format.lower()`: characterwise lowercasing (the format
names in play are ASCII). -/
def strLower (s : String) : String := ⟨s.data.map Char.toLower⟩

/-- `Path.mkdir(exist_ok=True)` on the set-of-paths filesystem: the
directory is created when missing, and `exist_ok=True` suppresses the
already-exists error.  (Failures outside this model — missing parent,
a file occupying the name — are not representable in a set of paths.) -/
def mkdirExistOk (fs : List String) (p : String) : List String :=
  if p ∈ fs then fs else p :: fs

/-- `YouTubeDownloader.__init__` (lines 16-63): creates the output directory
if missing, lowercases the format, stores the quality and builds the option
dictionary.  Returns the updated filesystem and the constructed object. -/
def initDownloader (fs : List String) (output_dir audio_format quality : String) :
    List String × YouTubeDownloader :=
  let fs' := mkdirExistOk fs output_dir
  let fmt := strLower audio_format
  (fs', { output_dir := output_dir, audio_format := fmt, quality := quality,
          ydl_opts := buildYdlOpts output_dir fmt quality })

/- ### The adapter calls (run_download.py, lines 72-132)

The external extraction/transcoding work inside the `try` blocks is an
oracle value: either an exception before any metadata was printed, an
exception after `extract_info` succeeded, or full success. -/

/-- Metadata returned by `extract_info`, already carrying the `.get`
defaults applied in the Python code. -/
structure Info where
  title : String
  uploader : String
  duration : Nat
  entries : Nat
deriving DecidableEq

/-- Outcome of the external work inside one `try` block. -/
inductive ExtOutcome where
  | raiseEarly (msg : String)
  | raiseLate (info : Info) (msg : String)
  | ok (info : Info)
deriving DecidableEq

/-- One printed line of the command-line program. -/
inductive Out where
  | progress (i total : Nat) (url : String)
  | titleLine (title : String)
  | uploaderLine (uploader : String)
  | durationLine (minutes seconds : Nat)
  | downloadingLine
  | downloadedLine (title : String)
  | errorSingle (url msg : String)
  | playlistLine (title : String)
  | foundLine (count : Nat)
  | sepLine
  | playlistDoneLine
  | errorPlaylist (url msg : String)
  | summary (successful total : Nat)
  | savedTo (dir : String)
deriving DecidableEq

/-- `download_single_video` (lines 72-94): every exception inside the `try`
is caught, the URL and message are printed, and `False` is returned; on
success the metadata and a success line are printed and `True` is
returned.  The function is total: no exception escapes, and the oracle is
consulted exactly once (no retry). -/
def download_single_video (url : String) (outcome : ExtOutcome) : List Out × Bool :=
  match outcome with
  | .raiseEarly msg => ([.errorSingle url msg], false)
  | .raiseLate info msg =>
    ([.titleLine info.title, .uploaderLine info.uploader,
      .durationLine (info.duration / 60) (info.duration % 60),
      .downloadingLine, .errorSingle url msg], false)
  | .ok info =>
    ([.titleLine info.title, .uploaderLine info.uploader,
      .durationLine (info.duration / 60) (info.duration % 60),
      .downloadingLine, .downloadedLine info.title], true)

/-- `download_playlist` (lines 96-132): analogous single-attempt
catch-and-log structure; the playlist subdirectory (sanitized title) and
the numbered output template are set on a copy of the options. -/
def download_playlist (url : String) (outcome : ExtOutcome) : List Out × Bool :=
  match outcome with
  | .raiseEarly msg => ([.errorPlaylist url msg], false)
  | .raiseLate info msg =>
    ([.playlistLine info.title, .foundLine info.entries, .sepLine,
      .errorPlaylist url msg], false)
  | .ok info =>
    ([.playlistLine info.title, .foundLine info.entries, .sepLine,
      .playlistDoneLine], true)

/- ### Batch orchestration (run_download.py, lines 140-161) -/

/-- Argument of `download`: Python accepts a single string or a list and
wraps the former (`if isinstance(urls, str): urls = [urls]`). -/
inductive URLsArg where
  | str (s : String)
  | list (l : List String)

/-- Result of the download loop: printed events, success count, and the
uncaught exception (`some` message) when a `ValueError` raised by
`is_playlist` aborted the loop. -/
structure LoopRes where
  events : List Out
  succ : Nat
  exn : Option String
deriving DecidableEq

/-- Result of `download`: printed events, plus the propagated exception
when the run crashed (no summary line is printed in that case). -/
structure RunRes where
  events : List Out
  exn : Option String
deriving DecidableEq

/-- The `for i, url in enumerate(urls, 1)` loop: prints the progress line,
then dispatches on `is_playlist` and accumulates the success count.
`outcome i` is the external result of the attempt at 1-based position `i`.
The progress line is printed before `is_playlist` is called, and that call
sits outside any try block: a `ValueError` from it aborts the loop after
the progress line, leaving later URLs unprocessed. -/
def dlLoop (total : Nat) (outcome : Nat → ExtOutcome) :
    List String → Nat → LoopRes
  | [], _ => ⟨[], 0, none⟩
  | u :: rest, i =>
    match is_playlist u with
    | .error e => ⟨[.progress i total u], 0, some e⟩
    | .ok b =>
      let r := if b then download_playlist u (outcome i)
               else download_single_video u (outcome i)
      let t := dlLoop total outcome rest (i + 1)
      ⟨.progress i total u :: (r.1 ++ t.events), (if r.2 then 1 else 0) + t.succ, t.exn⟩

/-- `YouTubeDownloader.download` (lines 140-161): normalises the argument,
runs the loop over all URLs, then prints the summary and the output
directory — unless the loop raised, in which case the exception propagates
and the summary is never reached. -/
def download (d : YouTubeDownloader) (urls : URLsArg)
    (outcome : Nat → ExtOutcome) : RunRes :=
  let l := match urls with
    | .str s => [s]
    | .list l => l
  let total := l.length
  let r := dlLoop total outcome l 1
  match r.exn with
  | some e => ⟨r.events, some e⟩
  | none => ⟨r.events ++ [.summary r.succ total, .savedTo d.output_dir], none⟩

/-- C7: every exception raised during extraction or transcoding inside
`download_single_video` or `download_playlist` is caught inside the call:
the offending URL is printed together with the error message, `false` is
returned, the oracle is consulted once (no retry), and — the functions
being total — no exception propagates to the caller. -/
theorem adapter_catches_exceptions (url msg : String) (info : Info) :
    download_single_video url (.raiseEarly msg) = ([.errorSingle url msg], false)
    ∧ (download_single_video url (.raiseLate info msg)).2 = false
    ∧ .errorSingle url msg ∈ (download_single_video url (.raiseLate info msg)).1
    ∧ download_playlist url (.raiseEarly msg) = ([.errorPlaylist url msg], false)
    ∧ (download_playlist url (.raiseLate info msg)).2 = false
    ∧ .errorPlaylist url msg ∈ (download_playlist url (.raiseLate info msg)).1 := by
  refine ⟨rfl, rfl, ?_, rfl, rfl, ?_⟩ <;>
    simp [download_single_video, download_playlist]

/-- C2: the configuration built by the constructor carries the requested
bitrate in both quality fields exactly for format mp3; for wav and flac the
bitrate is ignored for every quality string and the fields hold the
best/lossless markers (`"0"` and `None`). -/
theorem adapter_config_quality (fs : List String) (dir fmt q : String) :
    (strLower fmt = "mp3" →
      (initDownloader fs dir fmt q).2.ydl_opts.audioquality = q
      ∧ (initDownloader fs dir fmt q).2.ydl_opts.preferredquality = some q)
    ∧ ((strLower fmt = "wav" ∨ strLower fmt = "flac") →
      (initDownloader fs dir fmt q).2.ydl_opts.audioquality = "0"
      ∧ (initDownloader fs dir fmt q).2.ydl_opts.preferredquality = none) := by
  constructor
  · intro h
    simp [initDownloader, buildYdlOpts, h]
  · rintro (h | h) <;> simp [initDownloader, buildYdlOpts, h]

/-- Witness for C2: mp3 at 320k keeps the bitrate; wav at 320k gets the
lossless markers. -/
theorem adapter_config_quality_witness :
    ((initDownloader [] "d" "mp3" "320k").2.ydl_opts.audioquality = "320k"
      ∧ (initDownloader [] "d" "mp3" "320k").2.ydl_opts.preferredquality = some "320k")
    ∧ ((initDownloader [] "d" "wav" "320k").2.ydl_opts.audioquality = "0"
      ∧ (initDownloader [] "d" "wav" "320k").2.ydl_opts.preferredquality = none) :=
  ⟨(adapter_config_quality [] "d" "mp3" "320k").1 (by decide),
   (adapter_config_quality [] "d" "wav" "320k").2 (Or.inl (by decide))⟩

/-- C8: after construction the output directory is in the filesystem —
created when missing, left alone when present — so it exists before any
subsequent write. -/
theorem output_dir_created (fs : List String) (dir fmt q : String) :
    dir ∈ (initDownloader fs dir fmt q).1
    ∧ (dir ∈ fs → (initDownloader fs dir fmt q).1 = fs)
    ∧ (dir ∉ fs → (initDownloader fs dir fmt q).1 = dir :: fs) := by
  by_cases h : dir ∈ fs <;> simp [initDownloader, mkdirExistOk, h]

/-- Witness for C8: construction over the empty filesystem creates the
directory; over a filesystem that has it, the filesystem is unchanged. -/
theorem output_dir_created_witness :
    "out" ∈ (initDownloader [] "out" "mp3" "320k").1
    ∧ (initDownloader ["out"] "out" "mp3" "320k").1 = ["out"]
    ∧ (initDownloader [] "out" "mp3" "320k").1 = ["out"] :=
  ⟨(output_dir_created [] "out" "mp3" "320k").1,
   (output_dir_created ["out"] "out" "mp3" "320k").2.1 (by decide),
   (output_dir_created [] "out" "mp3" "320k").2.2 (by decide)⟩

/- ### Command-line entry point (run_download.py, lines 164-209) -/

/-- Parsed command-line arguments (`parse_arguments`, lines 164-188):
one or more URLs, `-o` (output) defaulting to the downloads directory,
`-f` (format) restricted to wav, flac, mp3 and defaulting to mp3, and
`-q` (quality) defaulting to 320k. -/
structure Args where
  urls : List String
  output : String
  fmt : String
  quality : String
deriving DecidableEq

/-- Arguments with only the URLs given, the rest at their defaults. -/
def defaultArgs (urls : List String) : Args :=
  { urls := urls, output := DEFAULT_DOWNLOAD_DIR,
    fmt := DEFAULT_AUDIO_FORMAT, quality := DEFAULT_QUALITY }

/-- The installation hint printed when ffmpeg is missing (lines 197-200). -/
def ffmpegHintLines : List String :=
  ["Error: ffmpeg not found. Please install ffmpeg first.",
   "On Ubuntu/Debian: sudo apt install ffmpeg",
   "On macOS: brew install ffmpeg",
   "On Windows: Download from https://ffmpeg.org/download.html"]

/-- Result of `main`: either `sys.exit(code)` after some prints, or a run
carrying the final filesystem and the downloader's output (including, in
its `exn` field, a `ValueError` that propagated out of `download`). -/
inductive MainResult where
  | exited (code : Nat) (lines : List String)
  | ran (fs : List String) (run : RunRes)
deriving DecidableEq

/-- `main` (lines 191-209): `ffmpegStatus` is the exit status of
`os.system("ffmpeg -version > /dev/null 2>&1")`.  A non-zero status prints
the hint and exits with status 1 — before the downloader is constructed or
any download attempted (the `exited` result carries neither a filesystem
update nor download events).  Otherwise the downloader is constructed and
the batch runs. -/
def mainEntry (ffmpegStatus : Nat) (args : Args) (outcome : Nat → ExtOutcome)
    (fs : List String) : MainResult :=
  if ffmpegStatus ≠ 0 then .exited 1 ffmpegHintLines
  else
    let r := initDownloader fs args.output args.fmt args.quality
    .ran r.1 (download r.2 (.list args.urls) outcome)

/-- C6: when the transcoder is missing (non-zero probe status) `main`
prints the installation hint and exits with status 1 without constructing
the downloader or attempting any download; when it is present, no exit
occurs. -/
theorem main_ffmpeg_gate (ffmpegStatus : Nat) (args : Args)
    (outcome : Nat → ExtOutcome) (fs : List String) :
    (ffmpegStatus ≠ 0 →
      mainEntry ffmpegStatus args outcome fs = .exited 1 ffmpegHintLines)
    ∧ (ffmpegStatus = 0 →
      ∀ code lines, mainEntry ffmpegStatus args outcome fs ≠ .exited code lines) := by
  constructor
  · intro h
    simp [mainEntry, h]
  · intro h code lines
    simp [mainEntry, h]

/-- Witness for C6: probe status 127 (command not found) exits with 1 and
the hint; probe status 0 does not exit. -/
theorem main_ffmpeg_gate_witness :
    mainEntry 127 (defaultArgs ["u"]) (fun _ => .raiseEarly "e") [] =
      .exited 1 ffmpegHintLines
    ∧ mainEntry 0 (defaultArgs ["u"]) (fun _ => .raiseEarly "e") [] ≠
      .exited 1 ffmpegHintLines :=
  ⟨(main_ffmpeg_gate 127 (defaultArgs ["u"]) (fun _ => .raiseEarly "e") []).1
      (by decide),
   (main_ffmpeg_gate 0 (defaultArgs ["u"]) (fun _ => .raiseEarly "e") []).2
      rfl 1 ffmpegHintLines⟩

/- ### Interactive front-end (src/app.py, lines 77-119)

The download-button handler.  Each `st.error`/`st.text`/`st.success` call
becomes an action; the `subprocess.Popen` of the command-line entry point
becomes a `launch` action carrying the argument vector, followed by the
streamed lines and the banner (`sub` is the subprocess interaction's
outcome; an exception there is displayed and re-raised). -/

/-- One front-end effect. -/
inductive AppAction where
  | errorMsg (m : String)
  | textLine (line : String)
  | successBanner
  | launch (args : List String)
  | raised (m : String)
deriving DecidableEq

/-- The `url.startswith((...))` check of app.py, lines 81-88. -/
def youtubeUrlOk (url : String) : Bool :=
  "https://www.youtube.com/".data.isPrefixOf url.data
  || "https://youtube.com/".data.isPrefixOf url.data
  || "https://youtu.be/".data.isPrefixOf url.data
  || "https://music.youtube".data.isPrefixOf url.data

/-- Marker for the multi-line FFmpeg installation message of lines 93-100
(its full markdown text is immaterial to the claims). -/
def ffmpegMissingMsg : String := "FFmpeg not found!"

/-- The command vector passed to `subprocess.Popen` (lines 106-115). -/
def launchArgs (fmt quality url : String) : List String :=
  ["/opt/anaconda3/bin/python/", "run_download.py", "-f", fmt, "-q", quality, url]

/-- The body of `if st.button(...)` (app.py, lines 77-119).  The three
validation checks are independent `if` statements with no `return` or
`st.stop`, so the subprocess launch happens regardless of their outcome.
`ffmpegStatus` is the `os.system` probe status; `sub` is the subprocess
interaction: either the streamed stdout lines followed by the success
banner, or an exception that is displayed and re-raised. -/
def buttonHandler (url : String) (ffmpegStatus : Nat) (fmt quality : String)
    (sub : Except String (List String)) : List AppAction :=
  (if url = "" then [.errorMsg "Please enter a YouTube URL"] else [])
  ++ (if !youtubeUrlOk url then [.errorMsg "Please enter a valid YouTube URL"] else [])
  ++ (if ffmpegStatus ≠ 0 then [.errorMsg ffmpegMissingMsg] else [])
  ++ [.launch (launchArgs fmt quality url)]
  ++ (match sub with
      | .ok lines => lines.map .textLine ++ [.successBanner]
      | .error e => [.errorMsg ("An error occurred: " ++ e), .raised e])

/-- C4: for every submission, a failing URL validation (empty or not
prefix-matching a known YouTube domain) or a failing transcoder check
displays an error message, yet the subprocess launch of the command-line
entry point still occurs: validation does not short-circuit execution. -/
theorem frontend_no_short_circuit (url : String) (ffmpegStatus : Nat)
    (fmt quality : String) (sub : Except String (List String)) :
    .launch (launchArgs fmt quality url)
      ∈ buttonHandler url ffmpegStatus fmt quality sub
    ∧ (url = "" →
      .errorMsg "Please enter a YouTube URL"
        ∈ buttonHandler url ffmpegStatus fmt quality sub)
    ∧ (youtubeUrlOk url = false →
      .errorMsg "Please enter a valid YouTube URL"
        ∈ buttonHandler url ffmpegStatus fmt quality sub)
    ∧ (ffmpegStatus ≠ 0 →
      .errorMsg ffmpegMissingMsg
        ∈ buttonHandler url ffmpegStatus fmt quality sub) := by
  refine ⟨?_, ?_, ?_, ?_⟩
  · simp [buttonHandler]
  · intro h
    simp [buttonHandler, h]
  · intro h
    simp [buttonHandler, h]
  · intro h
    simp [buttonHandler, h]

/-- Witness for C4: the empty URL fails both URL checks and, with a failing
ffmpeg probe, all three errors are displayed while the launch still
occurs. -/
theorem frontend_no_short_circuit_witness :
    .launch (launchArgs "mp3" "320k" "")
      ∈ buttonHandler "" 127 "mp3" "320k" (.ok [])
    ∧ .errorMsg "Please enter a YouTube URL"
        ∈ buttonHandler "" 127 "mp3" "320k" (.ok [])
    ∧ .errorMsg "Please enter a valid YouTube URL"
        ∈ buttonHandler "" 127 "mp3" "320k" (.ok [])
    ∧ .errorMsg ffmpegMissingMsg ∈ buttonHandler "" 127 "mp3" "320k" (.ok []) :=
  ⟨(frontend_no_short_circuit "" 127 "mp3" "320k" (.ok [])).1,
   (frontend_no_short_circuit "" 127 "mp3" "320k" (.ok [])).2.1 rfl,
   (frontend_no_short_circuit "" 127 "mp3" "320k" (.ok [])).2.2.1 (by decide),
   (frontend_no_short_circuit "" 127 "mp3" "320k" (.ok [])).2.2.2 (by decide)⟩
